import Mathlib

/-!
Shallow embedding of `bitcoin_safe_lib.gui.qt.spinning_button` and
`bitcoin_safe_lib.gui.qt.signal_tracker`, with theorems checking the
specification's claims about them.

The `SpinningButton` widget is modelled as a pure state machine: each
Python method becomes a function from a `ButtonState` to a new
`ButtonState` paired with the list of Qt notifications it emits.  The
two `QTimer`s are modelled by activity flags plus a millisecond
countdown for the single-shot timeout timer; the Qt event loop is
modelled by a 100 ms simulation step (`simStep`).  Signal connection
bookkeeping (`signal_tracker.py`) is modelled with explicit lists of
connection records and `Except` for Python exceptions.
-/

namespace SpinningButtonModel

/-- The icon currently displayed by the button: either the `enabled_icon`
passed at construction, or the spinner SVG rendered at a rotation angle
(`_spinner_icon(angle)` in the source). -/
inductive Icon where
  | enabledIcon : Icon
  | spinner (angle : Nat) : Icon
deriving DecidableEq, Repr

/-- Notifications (`pyqtSignal`s) emitted by the button. -/
inductive Event where
  | startedSpinning : Event
  | stoppedSpinning : Event
deriving DecidableEq, Repr

/-- State of a `SpinningButton`: the fields mutated by the Python class
(`_spinning`, `rotation_angle`, the displayed icon, the Qt
enabled/disabled flag, the two timers) together with its construction
parameters (`disable_while_spinning`, `timeout`, `_icon_size`,
`padding`).  `timeoutRemaining` is the milliseconds left on the
single-shot timeout timer; it is meaningful while `timeoutTimerActive`. -/
structure ButtonState where
  spinning : Bool
  rotation_angle : Nat
  icon : Icon
  enabled : Bool
  disable_while_spinning : Bool
  timeout : Nat
  timerActive : Bool
  timeoutTimerActive : Bool
  timeoutRemaining : Nat
  iconW : Nat
  iconH : Nat
  padding : Nat
deriving DecidableEq, Repr

/-- `SpinningButton.__init__`: not spinning, `rotation_angle = 0`,
icon set to the enabled icon, widget enabled (a fresh `QPushButton` is
enabled), both timers stopped, `_icon_size = QSize(18, 18)`,
`padding = 3`. -/
def init (timeout : Nat) (disable_while_spinning : Bool) : ButtonState :=
  { spinning := false
    rotation_angle := 0
    icon := Icon.enabledIcon
    enabled := true
    disable_while_spinning := disable_while_spinning
    timeout := timeout
    timerActive := false
    timeoutTimerActive := false
    timeoutRemaining := 0
    iconW := 18
    iconH := 18
    padding := 3 }

/-- `SpinningButton.start_spin`.  If already spinning: restart either
timer that has stopped and return (no state reset, no emission).
Otherwise: set `_spinning`, reset the angle to 0, show the frame-0
spinner icon, optionally disable the widget, start the animation timer,
start the timeout timer when `timeout > 0` (duration `timeout * 1000`
ms), and emit `signal_started_spinning`. -/
def start_spin (s : ButtonState) : ButtonState × List Event :=
  if s.spinning then
    let s1 := if s.timerActive then s else { s with timerActive := true }
    let s2 :=
      if 0 < s1.timeout ∧ ¬ s1.timeoutTimerActive then
        { s1 with timeoutTimerActive := true, timeoutRemaining := s1.timeout * 1000 }
      else s1
    (s2, [])
  else
    let s1 := { s with spinning := true, rotation_angle := 0, icon := Icon.spinner 0 }
    let s2 :=
      if s1.disable_while_spinning ∧ s1.enabled then { s1 with enabled := false } else s1
    let s3 := if s2.timerActive then s2 else { s2 with timerActive := true }
    let s4 :=
      if 0 < s3.timeout then
        { s3 with timeoutTimerActive := true, timeoutRemaining := s3.timeout * 1000 }
      else s3
    (s4, [Event.startedSpinning])

/-- `SpinningButton.enable_button`: stop both timers if active, record
whether we were spinning, clear `_spinning`, restore the enabled icon,
re-enable the widget if `disable_while_spinning` and it is disabled,
and emit `signal_stopped_spinning` only if we were spinning. -/
def enable_button (s : ButtonState) : ButtonState × List Event :=
  let s1 := if s.timerActive then { s with timerActive := false } else s
  let s2 := if s1.timeoutTimerActive then { s1 with timeoutTimerActive := false } else s1
  let was_spinning := s2.spinning
  let s3 := { s2 with spinning := false, icon := Icon.enabledIcon }
  let s4 :=
    if s3.disable_while_spinning ∧ ¬ s3.enabled then { s3 with enabled := true } else s3
  if was_spinning then (s4, [Event.stoppedSpinning]) else (s4, [])

/-- `SpinningButton.rotate_svg` (the animation tick callback): if not
spinning, stop the animation timer if it is active and return;
otherwise advance `rotation_angle` by 10 modulo 360 and re-render the
spinner icon at the new angle. -/
def rotate_svg (s : ButtonState) : ButtonState :=
  if ¬ s.spinning then
    if s.timerActive then { s with timerActive := false } else s
  else
    let a := (s.rotation_angle + 10) % 360
    { s with rotation_angle := a, icon := Icon.spinner a }

/-- `SpinningButton.on_clicked`: ignored while the widget is disabled,
otherwise triggers `start_spin`. -/
def on_clicked (s : ButtonState) : ButtonState × List Event :=
  if ¬ s.enabled then (s, []) else start_spin s

/-- `SpinningButton.sizeHint`: takes the base `QPushButton` size hint
(an external input) and returns the unchanged widget state together
with `QSize(base_width + icon_width + 2 * padding,
max(base_height, icon_height))`. -/
def sizeHint (s : ButtonState) (baseW baseH : Nat) : ButtonState × (Nat × Nat) :=
  (s, (baseW + s.iconW + 2 * s.padding, max baseH s.iconH))

/-- One 100 ms step of the Qt event loop: if the single-shot timeout
timer is active and its remaining time elapses within this step, it
fires (deactivating itself, being single-shot) and its `timeout` signal
invokes `enable_button`; otherwise the countdown decreases and, if the
animation timer is active, its `timeout` signal invokes `rotate_svg`. -/
def simStep (s : ButtonState) : ButtonState × List Event :=
  if s.timeoutTimerActive then
    if s.timeoutRemaining ≤ 100 then
      enable_button { s with timeoutTimerActive := false }
    else
      let s1 := { s with timeoutRemaining := s.timeoutRemaining - 100 }
      if s1.timerActive then (rotate_svg s1, []) else (s1, [])
  else
    if s.timerActive then (rotate_svg s, []) else (s, [])

/-- Iterate `simStep` for `n` 100 ms steps, discarding emissions. -/
def simRun : Nat → ButtonState → ButtonState
  | 0, s => s
  | n + 1, s => simRun n (simStep s).1

/-- A concrete mid-spin state: the state of a button constructed with
`timeout=60`, `disable_while_spinning=True` right after `start_spin`. -/
def spinExample : ButtonState :=
  { spinning := true
    rotation_angle := 0
    icon := Icon.spinner 0
    enabled := false
    disable_while_spinning := true
    timeout := 60
    timerActive := true
    timeoutTimerActive := true
    timeoutRemaining := 60000
    iconW := 18
    iconH := 18
    padding := 3 }

/-- A concrete freshly constructed (idle) state. -/
def idleExample : ButtonState := init 60 true

/-- States reachable from construction by any sequence of the modelled
operations (direct calls, clicks, timer callbacks, and event-loop
steps). -/
inductive Reachable : ButtonState → Prop
  | init (timeout : Nat) (dws : Bool) : Reachable (init timeout dws)
  | start {s : ButtonState} : Reachable s → Reachable (start_spin s).1
  | stop {s : ButtonState} : Reachable s → Reachable (enable_button s).1
  | click {s : ButtonState} : Reachable s → Reachable (on_clicked s).1
  | tick {s : ButtonState} : Reachable s → Reachable (rotate_svg s)
  | step {s : ButtonState} : Reachable s → Reachable (simStep s).1

end SpinningButtonModel

namespace SignalTrackerModel

/-- A subscription record `(signal, handler)` as stored by
`SignalTracker._connected_signals`; signals and handlers are identified
by reference, modelled as natural-number ids. -/
abbrev Conn := Nat × Nat

/-- `SignalTools.disconnect_signal(signal, handler)`: a single
best-effort disconnect.  `raises c` says whether the underlying
`signal.disconnect(handler)` call raises; the `except Exception`
clause swallows it and logs, so the model returns the list of log
entries produced (one entry when the call raised, none otherwise). -/
def disconnect_signal (raises : Conn → Bool) (c : Conn) : List Conn :=
  if raises c then [c] else []

/-- `SignalTools.disconnect_signals(connected)`: `while connected:`
pop the last record and best-effort disconnect it.  Returns the final
contents of `connected`, the order in which records were disconnected,
and the accumulated log entries. -/
def disconnect_signals (raises : Conn → Bool) (connected : List Conn) :
    List Conn × List Conn × List Conn :=
  if h : connected = [] then ([], [], [])
  else
    let c := connected.getLast h
    let rest := connected.dropLast
    let r := disconnect_signals raises rest
    (r.1, c :: r.2.1, disconnect_signal raises c ++ r.2.2)
termination_by connected.length
decreasing_by
  simp only [List.length_dropLast]
  exact Nat.sub_lt (List.length_pos.mpr h) Nat.one_pos

/-- `SignalTracker.disconnect_all`: delegates to
`SignalTools.disconnect_signals` on the tracker's record list. -/
def SignalTracker.disconnect_all (raises : Conn → Bool) (tracker : List Conn) :
    List Conn × List Conn × List Conn :=
  disconnect_signals raises tracker

/-- `SignalTracker.connect(signal, handler)`: the underlying
`signal.connect(handler)` call runs first (`doConnect` is its outcome:
`.ok` or a raised exception); the record is appended only afterwards.
Returns the call's outcome (an uncaught error propagates to the
caller) together with the tracker's record list after the call. -/
def SignalTracker.connect (doConnect : Except Unit Unit) (rec : Conn)
    (tracker : List Conn) : Except Unit Unit × List Conn :=
  match doConnect with
  | Except.error e => (Except.error e, tracker)
  | Except.ok _ => (Except.ok (), tracker ++ [rec])

/-- Outcome of one no-argument `signal.disconnect()` call in
`SignalTools.disconnect_all_signals_from`: either a connection was
removed, or the call raised an exception that is not the `TypeError`
sentinel.  A signal's behaviour is the finite list of outcomes of
successive calls; once the list is exhausted, nothing remains to
disconnect and the toolkit raises `TypeError`. -/
inductive DiscOutcome where
  | removed : DiscOutcome
  | otherErr : DiscOutcome
deriving DecidableEq, Repr

/-- An attribute of the owner object as seen by
`disconnect_all_signals_from`: the reserved `destroyed` signal, an
attribute whose `getattr` raises, a non-signal attribute, or a
signal-bearing attribute with the given disconnect behaviour. -/
inductive Attr where
  | destroyed (b : List DiscOutcome) : Attr
  | getattrFails : Attr
  | notSignal : Attr
  | signal (b : List DiscOutcome) : Attr
deriving DecidableEq, Repr

/-- The inner `_safe_disconnect` loop: `while True: try:
signal.disconnect() except TypeError: break`.  Exhausting the outcome
list means the toolkit raised the `TypeError` sentinel, which breaks
the loop; a `DiscOutcome.otherErr` exception is not caught and
propagates. -/
def safe_disconnect : List DiscOutcome → Except Unit Unit
  | [] => Except.ok ()
  | DiscOutcome.removed :: rest => safe_disconnect rest
  | DiscOutcome.otherErr :: _ => Except.error ()

/-- `SignalTools.disconnect_all_signals_from(owner)`: iterate over the
owner's attributes, skip the name `destroyed`, skip attributes whose
`getattr` raises, skip non-signals, and run `_safe_disconnect` on each
signal.  An exception escaping `_safe_disconnect` propagates out of
the whole call. -/
def disconnect_all_signals_from : List Attr → Except Unit Unit
  | [] => Except.ok ()
  | Attr.destroyed _ :: rest => disconnect_all_signals_from rest
  | Attr.getattrFails :: rest => disconnect_all_signals_from rest
  | Attr.notSignal :: rest => disconnect_all_signals_from rest
  | Attr.signal b :: rest =>
    match safe_disconnect b with
    | Except.ok _ => disconnect_all_signals_from rest
    | Except.error e => Except.error e

end SignalTrackerModel

namespace StopBindingModel

/-- Connection state relevant to `SpinningButton.set_enable_signal`:
the multiset of external signals currently connected to the button's
`enable_button` slot, and the `_stop_signal` field.  Signals are
identified by natural-number ids. -/
structure StopBinding where
  conns : List Nat
  stop_signal : Option Nat
deriving DecidableEq, Repr

/-- The underlying `signal.disconnect(self.enable_button)` call: Qt
removes every matching connection, and raises (`TypeError`) when the
slot is not connected. -/
def sig_disconnect (sid : Nat) (st : StopBinding) : Except Unit StopBinding :=
  if sid ∈ st.conns then
    Except.ok { st with conns := st.conns.filter (fun x => x ≠ sid) }
  else Except.error ()

/-- `SpinningButton._disconnect_signal`: best-effort disconnect, any
exception swallowed. -/
def _disconnect_signal (sid : Nat) (st : StopBinding) : StopBinding :=
  match sig_disconnect sid st with
  | Except.ok st1 => st1
  | Except.error _ => st

/-- The underlying `signal.connect(self.enable_button)` call:
`connectRaises sid` says whether it raises; on success the connection
is appended. -/
def sig_connect (connectRaises : Nat → Bool) (sid : Nat) (st : StopBinding) :
    Except Unit StopBinding :=
  if connectRaises sid then Except.error ()
  else Except.ok { st with conns := st.conns ++ [sid] }

/-- `SpinningButton.set_enable_signal`: best-effort disconnect of the
previously bound stop signal, clear `_stop_signal`, and return if given
`None`; otherwise record the new signal, defensively disconnect it,
and try to connect `enable_button` — on a connect exception, clear
`_stop_signal` (fail open) and swallow the exception. -/
def set_enable_signal (connectRaises : Nat → Bool) (newSig : Option Nat)
    (st : StopBinding) : StopBinding :=
  let st1 :=
    match st.stop_signal with
    | some old => { _disconnect_signal old st with stop_signal := none }
    | none => { st with stop_signal := none }
  match newSig with
  | none => st1
  | some sid =>
    let st2 := { st1 with stop_signal := some sid }
    let st3 := _disconnect_signal sid st2
    match sig_connect connectRaises sid st3 with
    | Except.ok st4 => st4
    | Except.error _ => { st3 with stop_signal := none }

end StopBindingModel

namespace SpinningButtonModel

lemma rotate_svg_spin_angle {s : ButtonState} (hs : s.spinning = true) :
    (rotate_svg s).rotation_angle = (s.rotation_angle + 10) % 360 := by
  simp [rotate_svg, hs]

lemma rotate_svg_spin_icon {s : ButtonState} (hs : s.spinning = true) :
    (rotate_svg s).icon = Icon.spinner ((s.rotation_angle + 10) % 360) := by
  simp [rotate_svg, hs]

lemma rotate_svg_spin_spinning {s : ButtonState} (hs : s.spinning = true) :
    (rotate_svg s).spinning = true := by
  simp [rotate_svg, hs]

lemma rotate_svg_iter (s : ButtonState) (hs : s.spinning = true)
    (ha : s.rotation_angle < 360) (k : Nat) :
    (rotate_svg^[k] s).spinning = true ∧
    (rotate_svg^[k] s).rotation_angle = (s.rotation_angle + 10 * k) % 360 := by
  induction k with
  | zero =>
    refine ⟨hs, ?_⟩
    simp [Nat.mod_eq_of_lt ha]
  | succ k ih =>
    obtain ⟨h1, h2⟩ := ih
    rw [Function.iterate_succ_apply']
    refine ⟨rotate_svg_spin_spinning h1, ?_⟩
    rw [rotate_svg_spin_angle h1, h2]
    omega

/-- C7: the animation tick callback `rotate_svg` is a no-op that stops
the animation timer when the button is not spinning; while spinning it
advances `rotation_angle` by exactly 10 modulo 360 and re-renders the
spinner at the new angle; and from angle 0, 36 consecutive ticks while
spinning return `rotation_angle` to 0. -/
theorem claim_C7_rotate_svg (s : ButtonState) :
    (s.spinning = false → rotate_svg s = { s with timerActive := false }) ∧
    (s.spinning = true →
      (rotate_svg s).rotation_angle = (s.rotation_angle + 10) % 360 ∧
      (rotate_svg s).icon = Icon.spinner ((s.rotation_angle + 10) % 360) ∧
      (rotate_svg s).spinning = true) ∧
    (s.spinning = true → s.rotation_angle = 0 →
      (rotate_svg^[36] s).rotation_angle = 0) := by
  refine ⟨?_, ?_, ?_⟩
  · intro h
    cases s
    simp_all [rotate_svg]
  · intro h
    exact ⟨rotate_svg_spin_angle h, rotate_svg_spin_icon h, rotate_svg_spin_spinning h⟩
  · intro hs h0
    have h := (rotate_svg_iter s hs (by omega) 36).2
    rw [h, h0]

/-- C7 witness: the implications of `claim_C7_rotate_svg` discharged at
concrete states. -/
theorem claim_C7_rotate_svg_witness :
    rotate_svg idleExample = { idleExample with timerActive := false } ∧
    (rotate_svg^[36] spinExample).rotation_angle = 0 :=
  ⟨(claim_C7_rotate_svg idleExample).1 rfl,
   (claim_C7_rotate_svg spinExample).2.2 rfl rfl⟩

lemma start_spin_of_spinning {s : ButtonState} (h : s.spinning = true) :
    start_spin s =
      ({ s with timerActive := true,
                timeoutTimerActive := (decide (0 < s.timeout) || s.timeoutTimerActive),
                timeoutRemaining :=
                  if 0 < s.timeout ∧ s.timeoutTimerActive = false
                  then s.timeout * 1000 else s.timeoutRemaining }, []) := by
  cases s with
  | mk sp ra ic en dw t ta tta tr w hh pd =>
    by_cases hta : ta <;> by_cases htta : tta <;> by_cases ht : 0 < t <;>
      simp_all [start_spin]

lemma start_spin_of_idle {s : ButtonState} (h : s.spinning = false) :
    start_spin s =
      ({ s with spinning := true, rotation_angle := 0, icon := Icon.spinner 0,
                enabled := (if s.disable_while_spinning then false else s.enabled),
                timerActive := true,
                timeoutTimerActive := (decide (0 < s.timeout) || s.timeoutTimerActive),
                timeoutRemaining :=
                  if 0 < s.timeout then s.timeout * 1000 else s.timeoutRemaining },
       [Event.startedSpinning]) := by
  cases s with
  | mk sp ra ic en dw t ta tta tr w hh pd =>
    by_cases hta : ta <;> by_cases htta : tta <;> by_cases ht : 0 < t <;>
      by_cases hdw : dw <;> by_cases hen : en <;> simp_all [start_spin]

lemma start_spin_fst_fields (s : ButtonState) :
    (start_spin s).1.spinning = true ∧
    (start_spin s).1.timerActive = true ∧
    (start_spin s).1.timeoutTimerActive = (decide (0 < s.timeout) || s.timeoutTimerActive) ∧
    (start_spin s).1.timeout = s.timeout := by
  by_cases h : s.spinning = true
  · rw [start_spin_of_spinning h]
    exact ⟨h, rfl, rfl, rfl⟩
  · have h0 : s.spinning = false := by simpa using h
    rw [start_spin_of_idle h0]
    exact ⟨rfl, rfl, rfl, rfl⟩

lemma update_timers_eq_self (b : ButtonState) (ta tta : Bool) (tr : Nat)
    (h1 : b.timerActive = ta) (h2 : b.timeoutTimerActive = tta)
    (h3 : b.timeoutRemaining = tr) :
    ({ b with timerActive := ta, timeoutTimerActive := tta,
              timeoutRemaining := tr } : ButtonState) = b := by
  cases b
  simp_all

lemma start_spin_fixed (s : ButtonState) :
    start_spin (start_spin s).1 = ((start_spin s).1, []) := by
  obtain ⟨h1, h2, h3, h4⟩ := start_spin_fst_fields s
  rw [start_spin_of_spinning h1]
  simp only [Prod.mk.injEq, and_true]
  refine update_timers_eq_self _ _ _ _ h2 ?_ ?_
  · rw [h3, h4, ← Bool.or_assoc, Bool.or_self]
  · rw [h3, h4]
    by_cases hT : 0 < s.timeout <;> simp [hT]

/-- C1: `start_spin` is idempotent: it emits `signal_started_spinning`
exactly on the Idle-to-Spinning transition (never while already
spinning); applying it again to the result changes nothing and emits
nothing (so N>1 consecutive calls equal a single call); it leaves both
timers running (restarting any that stopped, the timeout timer only
when `timeout > 0`); and a call made while already spinning does not
change `rotation_angle`, the icon, or the enabled state. -/
theorem claim_C1_start_spin_idempotent (s : ButtonState) :
    (start_spin s).2 = (if s.spinning then [] else [Event.startedSpinning]) ∧
    start_spin (start_spin s).1 = ((start_spin s).1, []) ∧
    (start_spin s).1.spinning = true ∧
    (start_spin s).1.timerActive = true ∧
    (start_spin s).1.timeoutTimerActive = (decide (0 < s.timeout) || s.timeoutTimerActive) ∧
    (s.spinning = true →
      (start_spin s).1.rotation_angle = s.rotation_angle ∧
      (start_spin s).1.icon = s.icon ∧
      (start_spin s).1.enabled = s.enabled) := by
  obtain ⟨h1, h2, h3, h4⟩ := start_spin_fst_fields s
  refine ⟨?_, start_spin_fixed s, h1, h2, h3, ?_⟩
  · by_cases h : s.spinning = true
    · rw [start_spin_of_spinning h, h]
      rfl
    · have h0 : s.spinning = false := by simpa using h
      rw [start_spin_of_idle h0, h0]
      rfl
  · intro h
    rw [start_spin_of_spinning h]
    exact ⟨rfl, rfl, rfl⟩

/-- C1 witness: `claim_C1_start_spin_idempotent` applied to the concrete
mid-spin state `spinExample`, discharging the already-spinning
hypothesis. -/
theorem claim_C1_start_spin_idempotent_witness :
    (start_spin spinExample).1.rotation_angle = spinExample.rotation_angle ∧
    (start_spin spinExample).1.icon = spinExample.icon ∧
    (start_spin spinExample).1.enabled = spinExample.enabled :=
  (claim_C1_start_spin_idempotent spinExample).2.2.2.2.2 rfl

lemma enable_button_eq (s : ButtonState) :
    enable_button s =
      ({ s with spinning := false, icon := Icon.enabledIcon,
                enabled := (if s.disable_while_spinning then true else s.enabled),
                timerActive := false, timeoutTimerActive := false },
       if s.spinning then [Event.stoppedSpinning] else []) := by
  cases s with
  | mk sp ra ic en dw t ta tta tr w hh pd =>
    by_cases hsp : sp <;> by_cases hta : ta <;> by_cases htta : tta <;>
      by_cases hdw : dw <;> by_cases hen : en <;> simp_all [enable_button]

lemma enable_button_fixed (s : ButtonState) :
    enable_button (enable_button s).1 = ((enable_button s).1, []) := by
  cases s with
  | mk sp ra ic en dw t ta tta tr w hh pd =>
    by_cases hsp : sp <;> by_cases hdw : dw <;> by_cases hen : en <;>
      simp_all [enable_button_eq]

/-- Invariant relating the enabled flag and the icon to the spin state:
when `disable_while_spinning` is off the widget is never disabled, and
an idle button shows the enabled icon and is enabled. -/
def BaseInv (s : ButtonState) : Prop :=
  (s.disable_while_spinning = false → s.enabled = true) ∧
  (s.spinning = false → s.icon = Icon.enabledIcon ∧ s.enabled = true)

lemma baseInv_init (t : Nat) (d : Bool) : BaseInv (init t d) := by
  constructor <;> simp [init]

lemma baseInv_start_spin {s : ButtonState} (h : BaseInv s) :
    BaseInv (start_spin s).1 := by
  cases s with
  | mk sp ra ic en dw t ta tta tr w hh pd =>
    obtain ⟨ha, hb⟩ := h
    by_cases hsp : sp <;> by_cases hta : ta <;> by_cases htta : tta <;>
      by_cases ht : 0 < t <;> by_cases hdw : dw <;> by_cases hen : en <;>
      simp_all [start_spin, BaseInv]

lemma baseInv_enable_button {s : ButtonState} (h : BaseInv s) :
    BaseInv (enable_button s).1 := by
  cases s with
  | mk sp ra ic en dw t ta tta tr w hh pd =>
    obtain ⟨ha, hb⟩ := h
    by_cases hsp : sp <;> by_cases hdw : dw <;> by_cases hen : en <;>
      simp_all [enable_button_eq, BaseInv]

lemma baseInv_rotate_svg {s : ButtonState} (h : BaseInv s) :
    BaseInv (rotate_svg s) := by
  cases s with
  | mk sp ra ic en dw t ta tta tr w hh pd =>
    obtain ⟨ha, hb⟩ := h
    by_cases hsp : sp <;> by_cases hta : ta <;> simp_all [rotate_svg, BaseInv]

lemma baseInv_on_clicked {s : ButtonState} (h : BaseInv s) :
    BaseInv (on_clicked s).1 := by
  unfold on_clicked
  split
  · exact h
  · exact baseInv_start_spin h

lemma baseInv_simStep {s : ButtonState} (h : BaseInv s) :
    BaseInv (simStep s).1 := by
  have h1 : BaseInv { s with timeoutTimerActive := false } := h
  have h2 : BaseInv { s with timeoutRemaining := s.timeoutRemaining - 100 } := h
  by_cases ha : s.timeoutTimerActive = true
  · by_cases hb : s.timeoutRemaining ≤ 100
    · simpa [simStep, ha, hb] using baseInv_enable_button h1
    · by_cases hc : s.timerActive = true
      · simpa [simStep, ha, hb, hc] using baseInv_rotate_svg h2
      · simpa [simStep, ha, hb, hc] using h2
  · by_cases hc : s.timerActive = true
    · simpa [simStep, ha, hc] using baseInv_rotate_svg h
    · simpa [simStep, ha, hc] using h

lemma reachable_baseInv {s : ButtonState} (hr : Reachable s) : BaseInv s := by
  induction hr with
  | init t d => exact baseInv_init t d
  | start _ ih => exact baseInv_start_spin ih
  | stop _ ih => exact baseInv_enable_button ih
  | click _ ih => exact baseInv_on_clicked ih
  | tick _ ih => exact baseInv_rotate_svg ih
  | step _ ih => exact baseInv_simStep ih

/-- C2: `enable_button` stops both timers; from a reachable spinning
state it restores the enabled icon, re-enables the control, and emits
`signal_stopped_spinning` exactly once; when `disable_while_spinning`
is off it never touches the enabled flag; from a reachable idle state
it only performs timer-stop bookkeeping and emits nothing, and a
repeated call is a complete no-op that emits nothing. -/
theorem claim_C2_enable_button (s : ButtonState) (hr : Reachable s) :
    (s.spinning = false →
      enable_button s = ({ s with timerActive := false, timeoutTimerActive := false }, [])) ∧
    (s.spinning = true →
      (enable_button s).2 = [Event.stoppedSpinning] ∧
      (enable_button s).1.spinning = false ∧
      (enable_button s).1.icon = Icon.enabledIcon ∧
      (enable_button s).1.enabled = true ∧
      (enable_button s).1.timerActive = false ∧
      (enable_button s).1.timeoutTimerActive = false) ∧
    (s.disable_while_spinning = false → (enable_button s).1.enabled = s.enabled) ∧
    enable_button (enable_button s).1 = ((enable_button s).1, []) := by
  obtain ⟨ha, hb⟩ := reachable_baseInv hr
  refine ⟨?_, ?_, ?_, enable_button_fixed s⟩
  · intro h0
    obtain ⟨hic, hen⟩ := hb h0
    cases s with
    | mk sp ra ic en dw t ta tta tr w hh pd =>
      by_cases hdw : dw <;> simp_all [enable_button_eq]
  · intro h1
    cases s with
    | mk sp ra ic en dw t ta tta tr w hh pd =>
      by_cases hdw : dw <;> simp_all [enable_button_eq]
  · intro hdw
    cases s with
    | mk sp ra ic en dw t ta tta tr w hh pd =>
      simp_all [enable_button_eq]

/-- C2 witness: `claim_C2_enable_button` applied to the reachable idle
state `init 60 true`, discharging the reachability and idle
hypotheses. -/
theorem claim_C2_enable_button_witness :
    enable_button (init 60 true) =
      ({ init 60 true with timerActive := false, timeoutTimerActive := false }, []) :=
  (claim_C2_enable_button (init 60 true) (Reachable.init 60 true)).1 rfl

lemma rotate_svg_of_idle {s : ButtonState} (h : s.spinning = false) :
    rotate_svg s = { s with timerActive := false } := by
  cases s
  simp_all [rotate_svg]

/-- The C9 invariant: the rotation angle is a multiple of 10 below
360. -/
def AngleInv (s : ButtonState) : Prop :=
  10 ∣ s.rotation_angle ∧ s.rotation_angle < 360

lemma angleInv_start_spin {s : ButtonState} (h : AngleInv s) :
    AngleInv (start_spin s).1 := by
  by_cases hs : s.spinning = true
  · rw [start_spin_of_spinning hs]
    exact h
  · have h0 : s.spinning = false := by simpa using hs
    rw [start_spin_of_idle h0]
    refine ⟨?_, ?_⟩ <;> norm_num

lemma angleInv_enable_button {s : ButtonState} (h : AngleInv s) :
    AngleInv (enable_button s).1 := by
  rw [enable_button_eq]
  exact h

lemma angleInv_rotate_svg {s : ButtonState} (h : AngleInv s) :
    AngleInv (rotate_svg s) := by
  obtain ⟨hd, hl⟩ := h
  by_cases hs : s.spinning = true
  · constructor
    · rw [rotate_svg_spin_angle hs]
      omega
    · rw [rotate_svg_spin_angle hs]
      omega
  · have h0 : s.spinning = false := by simpa using hs
    rw [rotate_svg_of_idle h0]
    exact ⟨hd, hl⟩

lemma angleInv_on_clicked {s : ButtonState} (h : AngleInv s) :
    AngleInv (on_clicked s).1 := by
  unfold on_clicked
  split
  · exact h
  · exact angleInv_start_spin h

lemma angleInv_simStep {s : ButtonState} (h : AngleInv s) :
    AngleInv (simStep s).1 := by
  have h1 : AngleInv { s with timeoutTimerActive := false } := h
  have h2 : AngleInv { s with timeoutRemaining := s.timeoutRemaining - 100 } := h
  by_cases ha : s.timeoutTimerActive = true
  · by_cases hb : s.timeoutRemaining ≤ 100
    · simpa [simStep, ha, hb] using angleInv_enable_button h1
    · by_cases hc : s.timerActive = true
      · simpa [simStep, ha, hb, hc] using angleInv_rotate_svg h2
      · simpa [simStep, ha, hb, hc] using h2
  · by_cases hc : s.timerActive = true
    · simpa [simStep, ha, hc] using angleInv_rotate_svg h
    · simpa [simStep, ha, hc] using h

/-- C9: in every state reachable from construction by `start_spin`,
`enable_button`, clicks, animation ticks, and event-loop steps, the
rotation angle is a multiple of 10 with `0 ≤ rotation_angle < 360`. -/
theorem claim_C9_angle_invariant (s : ButtonState) (hr : Reachable s) :
    10 ∣ s.rotation_angle ∧ s.rotation_angle < 360 := by
  have : AngleInv s := by
    induction hr with
    | init t d => refine ⟨?_, ?_⟩ <;> norm_num [init]
    | start _ ih => exact angleInv_start_spin ih
    | stop _ ih => exact angleInv_enable_button ih
    | click _ ih => exact angleInv_on_clicked ih
    | tick _ ih => exact angleInv_rotate_svg ih
    | step _ ih => exact angleInv_simStep ih
  exact this

/-- C9 witness: `claim_C9_angle_invariant` applied to the freshly
constructed state `init 60 true`. -/
theorem claim_C9_angle_invariant_witness :
    10 ∣ (init 60 true).rotation_angle ∧ (init 60 true).rotation_angle < 360 :=
  claim_C9_angle_invariant (init 60 true) (Reachable.init 60 true)

lemma rotate_svg_spin_fields {s : ButtonState} (hs : s.spinning = true) :
    (rotate_svg s).timerActive = s.timerActive ∧
    (rotate_svg s).timeoutTimerActive = s.timeoutTimerActive ∧
    (rotate_svg s).timeoutRemaining = s.timeoutRemaining := by
  simp [rotate_svg, hs]

lemma simRun_succ (n : Nat) (s : ButtonState) :
    simRun (n + 1) s = (simStep (simRun n s)).1 := by
  induction n generalizing s with
  | zero => rfl
  | succ n ih =>
    show simRun (n + 1) (simStep s).1 = _
    rw [ih]
    rfl

lemma simStep_countdown {x : ButtonState} (h1 : x.timeoutTimerActive = true)
    (h2 : ¬ x.timeoutRemaining ≤ 100) (h3 : x.timerActive = true) :
    (simStep x).1 = rotate_svg { x with timeoutRemaining := x.timeoutRemaining - 100 } := by
  simp [simStep, h1, h2, h3]

lemma simStep_fire {x : ButtonState} (h1 : x.timeoutTimerActive = true)
    (h2 : x.timeoutRemaining ≤ 100) :
    (simStep x).1 = (enable_button { x with timeoutTimerActive := false }).1 := by
  simp [simStep, h1, h2]

lemma enable_button_not_spinning (y : ButtonState) :
    (enable_button y).1.spinning = false := by
  rw [enable_button_eq]

lemma simRun_char {s : ButtonState} {T : Nat} (hsp : s.spinning = true)
    (hta : s.timerActive = true) (htta : s.timeoutTimerActive = true)
    (hrem : s.timeoutRemaining = T * 1000) :
    ∀ k, k < 10 * T →
      (simRun k s).spinning = true ∧ (simRun k s).timerActive = true ∧
      (simRun k s).timeoutTimerActive = true ∧
      (simRun k s).timeoutRemaining = T * 1000 - 100 * k := by
  intro k
  induction k with
  | zero =>
    intro _
    simpa [simRun] using ⟨hsp, hta, htta, hrem⟩
  | succ k ih =>
    intro hk
    have hk1 : k < 10 * T := by omega
    obtain ⟨i1, i2, i3, i4⟩ := ih hk1
    have hgt : ¬ (simRun k s).timeoutRemaining ≤ 100 := by
      rw [i4]
      omega
    rw [simRun_succ, simStep_countdown i3 hgt i2]
    have hy : ({ (simRun k s) with
        timeoutRemaining := (simRun k s).timeoutRemaining - 100 } : ButtonState).spinning
        = true := i1
    refine ⟨rotate_svg_spin_spinning hy, ?_, ?_, ?_⟩
    · rw [(rotate_svg_spin_fields hy).1]
      exact i2
    · rw [(rotate_svg_spin_fields hy).2.1]
      exact i3
    · rw [(rotate_svg_spin_fields hy).2.2]
      show (simRun k s).timeoutRemaining - 100 = T * 1000 - 100 * (k + 1)
      rw [i4]
      omega

lemma simStep_no_timeout {x : ButtonState} (h1 : x.timeoutTimerActive = false)
    (h2 : x.spinning = true) :
    (simStep x).1.spinning = true ∧ (simStep x).1.timeoutTimerActive = false := by
  by_cases hta : x.timerActive = true
  · have e : (simStep x).1 = rotate_svg x := by simp [simStep, h1, hta]
    rw [e, (rotate_svg_spin_fields h2).2.1]
    exact ⟨rotate_svg_spin_spinning h2, h1⟩
  · have e : (simStep x).1 = x := by simp [simStep, h1, hta]
    rw [e]
    exact ⟨h2, h1⟩

lemma simRun_no_timeout {s : ButtonState} (h1 : s.timeoutTimerActive = false)
    (h2 : s.spinning = true) (n : Nat) :
    (simRun n s).spinning = true ∧ (simRun n s).timeoutTimerActive = false := by
  induction n with
  | zero => exact ⟨h2, h1⟩
  | succ n ih =>
    rw [simRun_succ]
    exact simStep_no_timeout ih.2 ih.1

/-- C6: timeout law.  With `timeout = T > 0`, `start_spin` from a fresh
button starts the single-shot timeout timer with duration `T * 1000`
ms; the button is still spinning after any `k < 10 T` event-loop steps
of 100 ms (strictly before `T` seconds) and has transitioned to idle
after `10 T` steps (at `T` seconds), absent any other idle trigger.
With `timeout = 0` the timeout timer is never started and the button
stays spinning for any number of steps until an explicit
`enable_button` call, which always returns it to idle. -/
theorem claim_C6_timeout_law (T : Nat) (d : Bool) :
    (0 < T →
      (start_spin (init T d)).1.timeoutTimerActive = true ∧
      (start_spin (init T d)).1.timeoutRemaining = T * 1000 ∧
      (∀ k, k < 10 * T → (simRun k (start_spin (init T d)).1).spinning = true) ∧
      (simRun (10 * T) (start_spin (init T d)).1).spinning = false) ∧
    ((start_spin (init 0 d)).1.timeoutTimerActive = false ∧
     (∀ n, (simRun n (start_spin (init 0 d)).1).spinning = true) ∧
     (∀ n, (enable_button (simRun n (start_spin (init 0 d)).1)).1.spinning = false)) := by
  constructor
  · intro hT
    have hs := start_spin_of_idle (s := init T d) rfl
    have e_sp : (start_spin (init T d)).1.spinning = true := by rw [hs]
    have e_ta : (start_spin (init T d)).1.timerActive = true := by rw [hs]
    have e_tta : (start_spin (init T d)).1.timeoutTimerActive = true := by
      rw [hs]
      show (decide (0 < (init T d).timeout) || (init T d).timeoutTimerActive) = true
      simp [init, hT]
    have e_rem : (start_spin (init T d)).1.timeoutRemaining = T * 1000 := by
      rw [hs]
      show (if 0 < (init T d).timeout then (init T d).timeout * 1000
            else (init T d).timeoutRemaining) = T * 1000
      simp [init, hT]
    refine ⟨e_tta, e_rem, ?_, ?_⟩
    · intro k hk
      exact (simRun_char e_sp e_ta e_tta e_rem k hk).1
    · have h10 : 10 * T = (10 * T - 1) + 1 := by omega
      have hk : 10 * T - 1 < 10 * T := by omega
      obtain ⟨i1, i2, i3, i4⟩ := simRun_char e_sp e_ta e_tta e_rem (10 * T - 1) hk
      have hle : (simRun (10 * T - 1) (start_spin (init T d)).1).timeoutRemaining ≤ 100 := by
        rw [i4]
        omega
      rw [h10, simRun_succ, simStep_fire i3 hle]
      exact enable_button_not_spinning _
  · have hs := start_spin_of_idle (s := init 0 d) rfl
    have e_sp : (start_spin (init 0 d)).1.spinning = true := by rw [hs]
    have e_tta : (start_spin (init 0 d)).1.timeoutTimerActive = false := by
      rw [hs]
      show (decide (0 < (init 0 d).timeout) || (init 0 d).timeoutTimerActive) = false
      simp [init]
    refine ⟨e_tta, ?_, ?_⟩
    · intro n
      exact (simRun_no_timeout e_tta e_sp n).1
    · intro n
      exact enable_button_not_spinning _

/-- C6 witness: `claim_C6_timeout_law` at `T = 1` (still spinning after
9 steps = 0.9 s, idle after 10 steps = 1 s) and at `T = 0` (still
spinning after 6000 steps = 10 simulated minutes, idle after an
explicit `enable_button`). -/
theorem claim_C6_timeout_law_witness :
    (simRun 9 (start_spin (init 1 true)).1).spinning = true ∧
    (simRun 10 (start_spin (init 1 true)).1).spinning = false ∧
    (simRun 6000 (start_spin (init 0 true)).1).spinning = true ∧
    (enable_button (simRun 6000 (start_spin (init 0 true)).1)).1.spinning = false :=
  ⟨((claim_C6_timeout_law 1 true).1 (by norm_num)).2.2.1 9 (by norm_num),
   (by simpa using ((claim_C6_timeout_law 1 true).1 (by norm_num)).2.2.2),
   (claim_C6_timeout_law 0 true).2.2.1 6000,
   (claim_C6_timeout_law 0 true).2.2.2 6000⟩

/-- C8: `sizeHint` leaves the widget state unchanged and returns width
`base_width + icon_width + 2 * padding` and height
`max(base_height, icon_height)`. -/
theorem claim_C8_sizeHint (s : ButtonState) (baseW baseH : Nat) :
    (sizeHint s baseW baseH).1 = s ∧
    (sizeHint s baseW baseH).2 =
      (baseW + s.iconW + 2 * s.padding, max baseH s.iconH) :=
  ⟨rfl, rfl⟩

end SpinningButtonModel

namespace SignalTrackerModel

lemma disconnect_signals_eq (raises : Conn → Bool) (l : List Conn) :
    disconnect_signals raises l = ([], l.reverse, l.reverse.filter raises) := by
  induction l using List.reverseRecOn with
  | nil => rw [disconnect_signals]; simp
  | append_singleton xs x ih =>
    rw [disconnect_signals]
    have hne : xs ++ [x] ≠ [] := by simp
    rw [dif_neg hne]
    have h1 : (xs ++ [x]).getLast hne = x := by simp
    have h2 : (xs ++ [x]).dropLast = xs := by simp
    rw [h1, h2]
    simp only [ih, disconnect_signal, List.reverse_append, List.reverse_cons,
      List.reverse_nil, List.nil_append, List.cons_append, List.filter_cons]
    by_cases hr : raises x = true <;> simp [hr]

/-- C4: `SignalTracker.disconnect_all` empties the tracker's record
list, disconnecting records in reverse insertion order (LIFO), with
each individual disconnect failure logged and swallowed — the final
list is empty and the call returns normally no matter which (even all)
disconnects fail. -/
theorem claim_C4_disconnect_all (raises : Conn → Bool) (tracker : List Conn) :
    SignalTracker.disconnect_all raises tracker =
      ([], tracker.reverse, tracker.reverse.filter raises) :=
  disconnect_signals_eq raises tracker

/-- C10: `SignalTracker.connect` appends a record only after the
underlying `signal.connect` call succeeded; if that call raises, the
exception propagates to the caller and the record list is unchanged. -/
theorem claim_C10_connect_atomic (rec : Conn) (tracker : List Conn) :
    (∀ e : Unit,
      SignalTracker.connect (Except.error e) rec tracker = (Except.error e, tracker)) ∧
    SignalTracker.connect (Except.ok ()) rec tracker =
      (Except.ok (), tracker ++ [rec]) :=
  ⟨fun _ => rfl, rfl⟩

lemma safe_disconnect_ok {b : List DiscOutcome} (h : DiscOutcome.otherErr ∉ b) :
    safe_disconnect b = Except.ok () := by
  induction b with
  | nil => rfl
  | cons x rest ih =>
    cases x with
    | removed =>
      show safe_disconnect rest = Except.ok ()
      exact ih (by simp_all)
    | otherErr => simp at h

/-- C5 counterexample: an owner with a single signal whose first
no-argument disconnect call raises an error that is not the `TypeError`
sentinel.  `disconnect_all_signals_from` lets that exception propagate
out of the call, contrary to the claim that no disconnect failure ever
propagates (`_safe_disconnect` catches only `TypeError`). -/
theorem claim_C5_counterexample :
    disconnect_all_signals_from [Attr.signal [DiscOutcome.otherErr]] =
      Except.error () := rfl

/-- C5 (amended): for every signal-bearing attribute except the
reserved `destroyed` signal, the bulk teardown repeatedly invokes
no-argument disconnect until the toolkit raises the expected sentinel
error class (`TypeError`), which is treated as loop termination and
recovered; when every disconnect failure is of the sentinel class the
call returns normally with no exception — but a disconnect failure of
any other error class propagates out of the call. -/
theorem claim_C5_sentinel_teardown :
    (∀ attrs : List Attr,
      (∀ b, Attr.signal b ∈ attrs → DiscOutcome.otherErr ∉ b) →
      disconnect_all_signals_from attrs = Except.ok ()) ∧
    (∀ (b : List DiscOutcome) (rest : List Attr),
      disconnect_all_signals_from (Attr.destroyed b :: rest) =
        disconnect_all_signals_from rest) ∧
    (∀ b : List DiscOutcome, DiscOutcome.otherErr ∉ b →
      safe_disconnect b = Except.ok ()) := by
  refine ⟨?_, fun b rest => rfl, fun b h => safe_disconnect_ok h⟩
  intro attrs h
  induction attrs with
  | nil => rfl
  | cons a rest ih =>
    cases a with
    | destroyed b => exact ih (fun b2 hb2 => h b2 (by simp [hb2]))
    | getattrFails => exact ih (fun b2 hb2 => h b2 (by simp [hb2]))
    | notSignal => exact ih (fun b2 hb2 => h b2 (by simp [hb2]))
    | signal b =>
      have hb : DiscOutcome.otherErr ∉ b := h b (by simp)
      simp only [disconnect_all_signals_from, safe_disconnect_ok hb]
      exact ih (fun b2 hb2 => h b2 (by simp [hb2]))

/-- C5 witness: `claim_C5_sentinel_teardown` applied to a concrete
owner whose one signal needs two disconnect calls before the sentinel
and whose `destroyed` signal would raise a non-sentinel error if it
were not skipped. -/
theorem claim_C5_sentinel_teardown_witness :
    disconnect_all_signals_from
      [Attr.signal [DiscOutcome.removed, DiscOutcome.removed], Attr.notSignal,
       Attr.destroyed [DiscOutcome.otherErr]] = Except.ok () :=
  claim_C5_sentinel_teardown.1 _ (by
    intro b hb
    simp at hb
    subst hb
    decide)

end SignalTrackerModel

namespace StopBindingModel

lemma filter_ne_of_not_mem {a : Nat} {l : List Nat} (h : a ∉ l) :
    l.filter (fun x => x ≠ a) = l := by
  apply List.filter_eq_self.mpr
  intro b hb
  have hba : b ≠ a := fun e => h (e ▸ hb)
  simpa using hba

lemma disconnect_signal_slot_conns (sid : Nat) (st : StopBinding) :
    (_disconnect_signal sid st).conns = st.conns.filter (fun x => x ≠ sid) := by
  unfold _disconnect_signal sig_disconnect
  by_cases h : sid ∈ st.conns
  · simp [h]
  · rw [if_neg h, filter_ne_of_not_mem h]

lemma disconnect_signal_slot_stop (sid : Nat) (st : StopBinding) :
    (_disconnect_signal sid st).stop_signal = st.stop_signal := by
  unfold _disconnect_signal sig_disconnect
  by_cases h : sid ∈ st.conns <;> simp [h]

/-- C3: `set_enable_signal` rebinding.  It always ends with a
well-defined state (no exception surfaces): given `None` it leaves no
stop-subscription recorded and best-effort disconnects the previous
binding (removing its connections, a disconnect failure being
swallowed); given a signal whose `connect` raises, it records no
stop-subscription (fail open); given a signal whose `connect` succeeds,
it records that signal and `enable_button` is connected to it; and the
previously bound signal is never left connected. -/
theorem claim_C3_set_enable_signal (f : Nat → Bool) (st : StopBinding) :
    (set_enable_signal f none st).stop_signal = none ∧
    (∀ old, st.stop_signal = some old →
      (set_enable_signal f none st).conns = st.conns.filter (fun x => x ≠ old)) ∧
    (st.stop_signal = none → set_enable_signal f none st = { st with stop_signal := none }) ∧
    (∀ sid, f sid = true →
      (set_enable_signal f (some sid) st).stop_signal = none) ∧
    (∀ sid, f sid = false →
      (set_enable_signal f (some sid) st).stop_signal = some sid ∧
      sid ∈ (set_enable_signal f (some sid) st).conns) ∧
    (∀ old sid, st.stop_signal = some old → old ≠ sid →
      old ∉ (set_enable_signal f (some sid) st).conns) := by
  refine ⟨?_, ?_, ?_, ?_, ?_, ?_⟩
  · cases hss : st.stop_signal <;> simp [set_enable_signal, hss]
  · intro old h
    simp [set_enable_signal, h, disconnect_signal_slot_conns]
  · intro h
    simp [set_enable_signal, h]
  · intro sid hf
    cases hss : st.stop_signal <;> simp [set_enable_signal, hss, sig_connect, hf]
  · intro sid hf
    cases hss : st.stop_signal <;>
      simp [set_enable_signal, hss, sig_connect, hf, disconnect_signal_slot_stop]
  · intro old sid hss hne
    by_cases hf : f sid = true <;>
      simp [set_enable_signal, hss, sig_connect, hf, disconnect_signal_slot_conns,
        List.mem_filter, List.mem_append, hne]

/-- C3 witness: `claim_C3_set_enable_signal` at the concrete binding
state `{conns := [5], stop_signal := some 5}` rebound to signal `7`
whose `connect` succeeds: signal `7` is recorded and connected, and the
old signal `5` is fully disconnected. -/
theorem claim_C3_set_enable_signal_witness :
    (set_enable_signal (fun _ => false) (some 7) ⟨[5], some 5⟩).stop_signal = some 7 ∧
    7 ∈ (set_enable_signal (fun _ => false) (some 7) ⟨[5], some 5⟩).conns ∧
    5 ∉ (set_enable_signal (fun _ => false) (some 7) ⟨[5], some 5⟩).conns :=
  ⟨((claim_C3_set_enable_signal (fun _ => false) ⟨[5], some 5⟩).2.2.2.2.1 7 rfl).1,
   ((claim_C3_set_enable_signal (fun _ => false) ⟨[5], some 5⟩).2.2.2.2.1 7 rfl).2,
   (claim_C3_set_enable_signal (fun _ => false) ⟨[5], some 5⟩).2.2.2.2.2 5 7 rfl
     (by decide)⟩

end StopBindingModel
